import Mathlib

/-!
Verification of the mock device-agent harness
(`tests/integration/device_agent/mock_agent_server.py` and
`tests/integration/device_agent/test_client.py`).

The FastAPI handlers mutate one module-global `MockAgentState`; here each
handler is embedded as a pure state transformer
`MockAgentState → args → MockAgentState × Response`.  Python `datetime.now()`
timestamps are abstracted as a `Nat` instant passed to every handler that
records a command; Python `float` values (the `delay` parameters), which are
only ever stored and echoed back, never computed with, are carried as `Rat`.
-/

/-- A JSON-like parameter value as stored in a command record's `params`
mapping: Python ints, strings, floats (as `Rat`, see the header note) and
`None`. -/
inductive Value where
  | int (n : Int)
  | str (s : String)
  | rat (q : Rat)
  | null
  deriving DecidableEq, Repr

/-- Encode a Python `float | None` parameter value. -/
def Value.ofOptRat : Option Rat → Value
  | some q => .rat q
  | none => .null

/-- Encode a Python `int | None` parameter value. -/
def Value.ofOptInt : Option Int → Value
  | some n => .int n
  | none => .null

/-- `CommandRecord` (mock_agent_server.py): record of a single command
received by the agent. -/
structure CommandRecord where
  action : String
  device_id : String
  params : List (String × Value)
  timestamp : Nat
  deriving DecidableEq, Repr

/-- `CommandRecord.to_dict`: the JSON object returned by `/test/commands`
(the `isoformat` rendering of the timestamp is abstracted as decimal
rendering of the abstract instant). -/
structure CommandDict where
  action : String
  device_id : String
  params : List (String × Value)
  timestamp : String
  deriving DecidableEq, Repr

def CommandRecord.to_dict (c : CommandRecord) : CommandDict :=
  { action := c.action
    device_id := c.device_id
    params := c.params
    timestamp := toString c.timestamp }

/-- Modelled from the spec: the scenario state machine
(`tests.integration.state_machine`, imported by `MockAgentState.load_scenario`)
is not under `src/`.  §3 of the spec: a screenshot payload
`{pixelBytesBase64, width, height}`. -/
structure ScreenshotResult where
  base64_data : String
  width : Int
  height : Int
  deriving DecidableEq, Repr

/-- Modelled from the spec: transition kinds `Tap | Swipe` (§3). -/
inductive TransitionKind where
  | tap
  | swipe
  deriving DecidableEq, Repr

/-- Modelled from the spec: a `Transition`
`{kind, matchRegion (x1,y1,x2,y2), targetStateId}` (§3). -/
structure Transition where
  kind : TransitionKind
  x1 : Int
  y1 : Int
  x2 : Int
  y2 : Int
  target : String
  deriving DecidableEq, Repr

/-- Inclusive-bounds containment of a point in a transition's match region
(§4.2). -/
def Transition.containsPoint (t : Transition) (x y : Int) : Bool :=
  t.x1 ≤ x && x ≤ t.x2 && t.y1 ≤ y && y ≤ t.y2

/-- Modelled from the spec: a `State`
`{id, screenshot, currentApp, transitions}` (§3); the `id` is the key in the
graph's `states` mapping. -/
structure ScenarioState where
  screenshot : ScreenshotResult
  current_app : String
  transitions : List Transition
  deriving DecidableEq, Repr

/-- Modelled from the spec: the `SimulationEngine` over its `StateGraph`
(§3): `states` mapping (as an association list with unique keys, preserving
declaration order), `initialStateId`, mutable `currentStateId` and
append-only `history` (source attribute names `current_state_id`,
`state_history`). -/
structure SimulationEngine where
  states : List (String × ScenarioState)
  initial_state_id : String
  current_state_id : String
  state_history : List String
  deriving DecidableEq, Repr

/-- Modelled from the spec: the state at `currentStateId`.  The StateGraph
invariant (§3) guarantees the lookup succeeds. -/
def SimulationEngine.current_state (m : SimulationEngine) : Option ScenarioState :=
  m.states.lookup m.current_state_id

/-- Modelled from the spec: `getCurrentScreenshot` returns the screenshot of
the state at `currentStateId` (§4.2); the default is unreachable under the
StateGraph invariant. -/
def SimulationEngine.get_current_screenshot (m : SimulationEngine) : ScreenshotResult :=
  ((m.current_state).map ScenarioState.screenshot).getD ⟨"", 0, 0⟩

/-- Modelled from the spec: `getCurrentApp` returns `currentApp` of the
current state (§4.2); the default is unreachable under the StateGraph
invariant. -/
def SimulationEngine.current_state_app (m : SimulationEngine) : String :=
  ((m.current_state).map ScenarioState.current_app).getD ""

/-- Modelled from the spec: `handleTap(x, y)` (§4.2) — the first transition
of kind `Tap` in declaration order whose region contains `(x, y)` (inclusive
bounds) is applied; otherwise state and history are unchanged. -/
def SimulationEngine.handle_tap (m : SimulationEngine) (x y : Int) : SimulationEngine :=
  match m.current_state with
  | none => m
  | some st =>
    match st.transitions.find? (fun t => t.kind == .tap && t.containsPoint x y) with
    | none => m
    | some t =>
      { m with
        current_state_id := t.target
        state_history := m.state_history ++ [t.target] }

/-- Modelled from the spec: `handleSwipe(startX, startY, endX, endY)` (§4.2)
— same matching algorithm as tap, over `Swipe`-kind transitions, testing the
region against the start point only. -/
def SimulationEngine.handle_swipe (m : SimulationEngine)
    (start_x start_y _end_x _end_y : Int) : SimulationEngine :=
  match m.current_state with
  | none => m
  | some st =>
    match st.transitions.find? (fun t => t.kind == .swipe && t.containsPoint start_x start_y) with
    | none => m
    | some t =>
      { m with
        current_state_id := t.target
        state_history := m.state_history ++ [t.target] }

/-- `MockAgentState` (mock_agent_server.py): global state for the mock
agent. -/
structure MockAgentState where
  commands : List CommandRecord
  state_machine : Option SimulationEngine
  scenario_path : Option String
  deriving DecidableEq, Repr

/-- `MockAgentState.__init__`. -/
def MockAgentState.init : MockAgentState :=
  { commands := [], state_machine := none, scenario_path := none }

/-- `MockAgentState.record`: append a `CommandRecord`; `now` is the
`datetime.now()` capture. -/
def MockAgentState.record (s : MockAgentState) (action device_id : String)
    (params : List (String × Value)) (now : Nat) : MockAgentState :=
  { s with
    commands := s.commands ++
      [{ action := action, device_id := device_id, params := params, timestamp := now }] }

/-- `MockAgentState.reset`: reset command history. -/
def MockAgentState.reset (s : MockAgentState) : MockAgentState :=
  { s with commands := [] }

/-- `MockAgentState.load_scenario`: sets `scenario_path` to the requested
path, then calls `load_test_case` (a 3-tuple-returning loader imported from
the missing `tests.integration.state_machine` module, hence taken here as a
parameter; `Except.error` models the loader raising).  On a raise the
already-performed `scenario_path` assignment persists and `state_machine`
keeps its previous value, because the tuple assignment never executes. -/
def MockAgentState.run_load_scenario {α β : Type} (load_test_case : String → Except String (SimulationEngine × α × β))
    (s : MockAgentState) (path : String) : MockAgentState × Except String Unit :=
  let s1 := { s with scenario_path := some path }
  match load_test_case path with
  | .ok (m, _, _) => ({ s1 with state_machine := some m }, .ok ())
  | .error e => (s1, .error e)

/-- `MockAgentState.get_screenshot_data`: current screenshot from the state
machine, or the fixed placeholder. -/
structure ScreenshotData where
  base64_data : String
  width : Int
  height : Int
  is_sensitive : Bool
  deriving DecidableEq, Repr

def MockAgentState.get_screenshot_data (s : MockAgentState) : ScreenshotData :=
  match s.state_machine with
  | some m =>
    let result := m.get_current_screenshot
    { base64_data := result.base64_data
      width := result.width
      height := result.height
      is_sensitive := false }
  | none =>
    { base64_data := ""
      width := 1080
      height := 2400
      is_sensitive := false }

/-- `MockAgentState.get_current_app`: current app from the state machine, or
the fixed placeholder. -/
def MockAgentState.get_current_app (s : MockAgentState) : String :=
  match s.state_machine with
  | some m => m.current_state_app
  | none => "com.mock.app"

/-! ## Request models (pydantic `BaseModel`s) -/

structure TapRequest where
  x : Int
  y : Int
  delay : Option Rat
  deriving DecidableEq, Repr

structure SwipeRequest where
  start_x : Int
  start_y : Int
  end_x : Int
  end_y : Int
  duration_ms : Option Int
  delay : Option Rat
  deriving DecidableEq, Repr

structure LongPressRequest where
  x : Int
  y : Int
  duration_ms : Int
  delay : Option Rat
  deriving DecidableEq, Repr

structure TypeTextRequest where
  text : String
  deriving DecidableEq, Repr

structure LaunchAppRequest where
  app_name : String
  delay : Option Rat
  deriving DecidableEq, Repr

structure ScreenshotRequest where
  timeout : Int
  deriving DecidableEq, Repr

structure LoadScenarioRequest where
  scenario_path : String
  deriving DecidableEq, Repr

/-! ## Response models (the JSON objects the handlers return) -/

structure StatusResponse where
  status : String
  deriving DecidableEq, Repr

structure LaunchAppResponse where
  status : String
  success : Bool
  deriving DecidableEq, Repr

structure AppNameResponse where
  app_name : String
  deriving DecidableEq, Repr

structure DetectKeyboardResponse where
  original_ime : String
  deriving DecidableEq, Repr

structure ResetResponse where
  status : String
  commands_cleared : Bool
  deriving DecidableEq, Repr

structure LoadScenarioResponse where
  status : String
  scenario : String
  states : List String
  deriving DecidableEq, Repr

structure GetStateResponse where
  current_state : Option String
  history : List String
  deriving DecidableEq, Repr

structure ExpectResponse where
  «match» : Bool
  expected : List String
  actual : List String
  message : String
  deriving DecidableEq, Repr

/-- `fastapi.HTTPException` as raised by `load_scenario`. -/
structure HTTPException where
  status_code : Nat
  detail : String
  deriving DecidableEq, Repr

/-! ## Route handlers (`_register_routes` in mock_agent_server.py)

Each handler takes the global `MockAgentState` and returns the new state
together with its response. -/

/-- `POST /device/{device_id}/screenshot`. -/
def MockAgentServer.screenshot (s : MockAgentState) (device_id : String)
    (req : ScreenshotRequest) (now : Nat) : MockAgentState × ScreenshotData :=
  let s1 := s.record "screenshot" device_id [("timeout", .int req.timeout)] now
  (s1, s1.get_screenshot_data)

/-- `POST /device/{device_id}/tap`. -/
def MockAgentServer.tap (s : MockAgentState) (device_id : String)
    (req : TapRequest) (now : Nat) : MockAgentState × StatusResponse :=
  let s1 := s.record "tap" device_id
    [("x", .int req.x), ("y", .int req.y), ("delay", Value.ofOptRat req.delay)] now
  let s2 :=
    match s1.state_machine with
    | some m => { s1 with state_machine := some (m.handle_tap req.x req.y) }
    | none => s1
  (s2, ⟨"ok"⟩)

/-- `POST /device/{device_id}/double_tap`. -/
def MockAgentServer.double_tap (s : MockAgentState) (device_id : String)
    (req : TapRequest) (now : Nat) : MockAgentState × StatusResponse :=
  let s1 := s.record "double_tap" device_id
    [("x", .int req.x), ("y", .int req.y), ("delay", Value.ofOptRat req.delay)] now
  let s2 :=
    match s1.state_machine with
    | some m => { s1 with state_machine := some (m.handle_tap req.x req.y) }
    | none => s1
  (s2, ⟨"ok"⟩)

/-- `POST /device/{device_id}/long_press`. -/
def MockAgentServer.long_press (s : MockAgentState) (device_id : String)
    (req : LongPressRequest) (now : Nat) : MockAgentState × StatusResponse :=
  let s1 := s.record "long_press" device_id
    [("x", .int req.x), ("y", .int req.y), ("duration_ms", .int req.duration_ms),
      ("delay", Value.ofOptRat req.delay)] now
  let s2 :=
    match s1.state_machine with
    | some m => { s1 with state_machine := some (m.handle_tap req.x req.y) }
    | none => s1
  (s2, ⟨"ok"⟩)

/-- `POST /device/{device_id}/swipe`. -/
def MockAgentServer.swipe (s : MockAgentState) (device_id : String)
    (req : SwipeRequest) (now : Nat) : MockAgentState × StatusResponse :=
  let s1 := s.record "swipe" device_id
    [("start_x", .int req.start_x), ("start_y", .int req.start_y),
      ("end_x", .int req.end_x), ("end_y", .int req.end_y),
      ("duration_ms", Value.ofOptInt req.duration_ms),
      ("delay", Value.ofOptRat req.delay)] now
  let s2 :=
    match s1.state_machine with
    | some m =>
      { s1 with
        state_machine := some (m.handle_swipe req.start_x req.start_y req.end_x req.end_y) }
    | none => s1
  (s2, ⟨"ok"⟩)

/-- `POST /device/{device_id}/type_text`. -/
def MockAgentServer.type_text (s : MockAgentState) (device_id : String)
    (req : TypeTextRequest) (now : Nat) : MockAgentState × StatusResponse :=
  (s.record "type_text" device_id [("text", .str req.text)] now, ⟨"ok"⟩)

/-- `POST /device/{device_id}/clear_text`. -/
def MockAgentServer.clear_text (s : MockAgentState) (device_id : String)
    (now : Nat) : MockAgentState × StatusResponse :=
  (s.record "clear_text" device_id [] now, ⟨"ok"⟩)

/-- `POST /device/{device_id}/back`. -/
def MockAgentServer.back (s : MockAgentState) (device_id : String)
    (delay : Option Rat) (now : Nat) : MockAgentState × StatusResponse :=
  (s.record "back" device_id [("delay", Value.ofOptRat delay)] now, ⟨"ok"⟩)

/-- `POST /device/{device_id}/home`. -/
def MockAgentServer.home (s : MockAgentState) (device_id : String)
    (delay : Option Rat) (now : Nat) : MockAgentState × StatusResponse :=
  (s.record "home" device_id [("delay", Value.ofOptRat delay)] now, ⟨"ok"⟩)

/-- `POST /device/{device_id}/launch_app`. -/
def MockAgentServer.launch_app (s : MockAgentState) (device_id : String)
    (req : LaunchAppRequest) (now : Nat) : MockAgentState × LaunchAppResponse :=
  (s.record "launch_app" device_id
    [("app_name", .str req.app_name), ("delay", Value.ofOptRat req.delay)] now,
    ⟨"ok", true⟩)

/-- `GET /device/{device_id}/current_app` — note the recorded action is
`"get_current_app"`. -/
def MockAgentServer.current_app (s : MockAgentState) (device_id : String)
    (now : Nat) : MockAgentState × AppNameResponse :=
  let s1 := s.record "get_current_app" device_id [] now
  (s1, ⟨s1.get_current_app⟩)

/-- `POST /device/{device_id}/detect_keyboard`. -/
def MockAgentServer.detect_keyboard (s : MockAgentState) (device_id : String)
    (now : Nat) : MockAgentState × DetectKeyboardResponse :=
  (s.record "detect_keyboard" device_id [] now, ⟨"com.mock.keyboard"⟩)

/-- `POST /device/{device_id}/restore_keyboard`. -/
def MockAgentServer.restore_keyboard (s : MockAgentState) (device_id : String)
    (ime : String) (now : Nat) : MockAgentState × StatusResponse :=
  (s.record "restore_keyboard" device_id [("ime", .str ime)] now, ⟨"ok"⟩)

/-- `GET /test/commands`. -/
def MockAgentServer.get_commands (s : MockAgentState) : MockAgentState × List CommandDict :=
  (s, s.commands.map CommandRecord.to_dict)

/-- Insertion into a Python dict modelled as an ordered association list:
replace the value in place if the key exists, else append. -/
def dictSet (d : List (String × Value)) (k : String) (v : Value) : List (String × Value) :=
  if d.any (fun p => p.1 = k) then
    d.map (fun p => if p.1 = k then (k, v) else p)
  else
    d ++ [(k, v)]

/-- The merged dict `{"action": cmd.action, **cmd.params}` built by
`GET /test/commands/actions`: start from the `action` key, then insert each
param in order (a later duplicate key overrides). -/
def mergeActionDict (cmd : CommandRecord) : List (String × Value) :=
  cmd.params.foldl (fun d p => dictSet d p.1 p.2) [("action", .str cmd.action)]

/-- `GET /test/commands/actions`. -/
def MockAgentServer.get_command_actions (s : MockAgentState) :
    MockAgentState × List (List (String × Value)) :=
  (s, s.commands.map mergeActionDict)

/-- `POST /test/reset`. -/
def MockAgentServer.reset (s : MockAgentState) : MockAgentState × ResetResponse :=
  (s.reset, ⟨"reset", true⟩)

/-- `POST /test/load_scenario`: `try` around `state.load_scenario`, raising
`HTTPException(400, ...)` on failure. -/
def MockAgentServer.load_scenario {α β : Type} (load_test_case : String → Except String (SimulationEngine × α × β))
    (s : MockAgentState) (req : LoadScenarioRequest) :
    MockAgentState × Except HTTPException LoadScenarioResponse :=
  match MockAgentState.run_load_scenario load_test_case s req.scenario_path with
  | (s1, .ok ()) =>
    (s1, .ok
      { status := "loaded"
        scenario := req.scenario_path
        states :=
          match s1.state_machine with
          | some m => m.states.map Prod.fst
          | none => [] })
  | (s1, .error e) =>
    (s1, .error { status_code := 400, detail := "Failed to load scenario: " ++ e })

/-- `GET /test/state`. -/
def MockAgentServer.get_state (s : MockAgentState) : MockAgentState × GetStateResponse :=
  match s.state_machine with
  | none => (s, { current_state := none, history := [] })
  | some m => (s, { current_state := some m.current_state_id, history := m.state_history })

/-- The `expected` list of `GET /test/expect`:
`[a.strip() for a in actions.split(",")]` (Python `str.strip` modelled by
`String.trim`). -/
def parseExpected (actions : String) : List String :=
  (actions.splitOn ",").map String.trim

/-- `GET /test/expect`. -/
def MockAgentServer.expect_commands (s : MockAgentState) (actions : String) :
    MockAgentState × ExpectResponse :=
  let expected := parseExpected actions
  let actual := s.commands.map CommandRecord.action
  let m := actual == expected
  (s,
    { «match» := m
      expected := expected
      actual := actual
      message :=
        if m then "Commands match!"
        else "Mismatch: expected " ++ toString expected ++ ", got " ++ toString actual })

/-! ## TestClient (`test_client.py`)

`MockAgentTestClient` issues HTTP calls against the harness; its assertion
helpers are embedded as functions of the server state they would observe.
An outcome distinguishes a Python `AssertionError` from any other exception
(e.g. a `KeyError` on a missing coordinate). -/

inductive ClientOutcome where
  | ok
  | assertionError (msg : String)
  | systemError (msg : String)
  deriving DecidableEq, Repr

def ClientOutcome.isAssertionError : ClientOutcome → Bool
  | .assertionError _ => true
  | _ => false

def ClientOutcome.isSystemError : ClientOutcome → Bool
  | .systemError _ => true
  | _ => false

/-- The `taps` list of `assert_tap_in_region`:
`[a for a in self.get_actions() if a["action"] == "tap"]`. -/
def MockAgentTestClient.tapActions (s : MockAgentState) : List (List (String × Value)) :=
  ((MockAgentServer.get_command_actions s).2).filter
    (fun a => a.lookup "action" == some (Value.str "tap"))

/-- The `x`/`y` coordinate pair of one entry of the `taps` list, when both
are present and integers (as every harness-recorded tap's are). -/
def tapXY (a : List (String × Value)) : Option (Int × Int) :=
  match a.lookup "x", a.lookup "y" with
  | some (.int x), some (.int y) => some (x, y)
  | _, _ => none

/-- `MockAgentTestClient.assert_tap_in_region`: assert the `index`-th
recorded tap lies in `[x1, x2] × [y1, y2]`.  A failed `assert` statement is
`assertionError`; the `KeyError`/unpacking failure that `x, y = tap["x"],
tap["y"]` would raise on a tap entry without integer coordinates is
`systemError`. -/
def MockAgentTestClient.assert_tap_in_region (s : MockAgentState)
    (x1 y1 x2 y2 : Int) (index : Nat) : ClientOutcome :=
  let taps := MockAgentTestClient.tapActions s
  if h : index < taps.length then
    match tapXY taps[index] with
    | some (x, y) =>
      if x1 ≤ x ∧ x ≤ x2 then
        if y1 ≤ y ∧ y ≤ y2 then .ok
        else .assertionError ("Tap y=" ++ toString y ++ " not in range [" ++
          toString y1 ++ ", " ++ toString y2 ++ "]")
      else .assertionError ("Tap x=" ++ toString x ++ " not in range [" ++
        toString x1 ++ ", " ++ toString x2 ++ "]")
    | none => .systemError "KeyError"
  else
    .assertionError ("Expected at least " ++ toString (index + 1) ++ " tap(s), got " ++
      toString taps.length)

/-- Well-formedness of a command log as far as `assert_tap_in_region` is
concerned: every record whose merged action dict (§`get_command_actions`)
carries `action = "tap"` exposes integer `x` and `y` params.  Every log the
harness itself produces satisfies this (taps are only recorded by the `tap`
handler, whose params are `x`, `y`, `delay`). -/
def tapWF (cmds : List CommandRecord) : Bool :=
  cmds.all fun cmd =>
    let a := mergeActionDict cmd
    if a.lookup "action" == some (Value.str "tap") then (tapXY a).isSome else true

/-! ## Helper definitions and lemmas for the theorems -/

/-- One generic `MockAgentState.record` invocation (used to state ordering
properties over arbitrary sequences of record calls). -/
structure RecordCall where
  action : String
  device_id : String
  params : List (String × Value)
  now : Nat

def RecordCall.toRecord (c : RecordCall) : CommandRecord :=
  ⟨c.action, c.device_id, c.params, c.now⟩

/-- Run a sequence of `record` calls in order. -/
def applyRecords (s : MockAgentState) (calls : List RecordCall) : MockAgentState :=
  calls.foldl (fun t c => t.record c.action c.device_id c.params c.now) s

theorem applyRecords_commands (calls : List RecordCall) (s : MockAgentState) :
    (applyRecords s calls).commands = s.commands ++ calls.map RecordCall.toRecord := by
  induction calls generalizing s with
  | nil => simp [applyRecords]
  | cons c cs ih =>
    simp only [applyRecords, List.foldl_cons] at *
    rw [ih]
    simp [MockAgentState.record, RecordCall.toRecord]

/-- A string starting with `Mismatch` is never the match diagnostic. -/
theorem mismatch_message_ne (t u : String) :
    "Mismatch: expected " ++ t ++ ", got " ++ u ≠ "Commands match!" := by
  intro h
  have h2 : ("Mismatch: expected " ++ t ++ ", got " ++ u).data.head?
      = "Commands match!".data.head? := by rw [h]
  simp only [String.data_append] at h2
  simp [show "Mismatch: expected ".data = 'M' :: "ismatch: expected ".data from rfl,
    show "Commands match!".data = 'C' :: "ommands match!".data from rfl] at h2

/-! ## Claim theorems -/

/-- C1, counterexample: the claim says every device-control verb endpoint
appends a record whose `action` equals the verb's name; but a call to the
`current_app` endpoint appends a record whose action is `"get_current_app"`,
which is not `"current_app"`. -/
theorem c1_counterexample :
    ((MockAgentServer.current_app MockAgentState.init "mock_device_001" 0).1.commands.map
      CommandRecord.action = ["get_current_app"])
    ∧ "get_current_app" ≠ "current_app" :=
  ⟨rfl, by decide⟩

/-- C1, amended: every device-control verb endpoint appends, unconditionally
(for every state, in particular whatever `state_machine` holds), exactly one
`CommandRecord` carrying the caller-supplied device id and all verb
parameters, whose `action` is the verb's name — except the `current_app`
endpoint, which records the action name `"get_current_app"`. -/
theorem c1_amended_every_verb_records (s : MockAgentState) (d : String) (now : Nat) :
    (∀ req : TapRequest, (MockAgentServer.tap s d req now).1.commands
      = s.commands ++ [⟨"tap", d,
          [("x", .int req.x), ("y", .int req.y), ("delay", Value.ofOptRat req.delay)], now⟩])
    ∧ (∀ req : TapRequest, (MockAgentServer.double_tap s d req now).1.commands
      = s.commands ++ [⟨"double_tap", d,
          [("x", .int req.x), ("y", .int req.y), ("delay", Value.ofOptRat req.delay)], now⟩])
    ∧ (∀ req : LongPressRequest, (MockAgentServer.long_press s d req now).1.commands
      = s.commands ++ [⟨"long_press", d,
          [("x", .int req.x), ("y", .int req.y), ("duration_ms", .int req.duration_ms),
            ("delay", Value.ofOptRat req.delay)], now⟩])
    ∧ (∀ req : SwipeRequest, (MockAgentServer.swipe s d req now).1.commands
      = s.commands ++ [⟨"swipe", d,
          [("start_x", .int req.start_x), ("start_y", .int req.start_y),
            ("end_x", .int req.end_x), ("end_y", .int req.end_y),
            ("duration_ms", Value.ofOptInt req.duration_ms),
            ("delay", Value.ofOptRat req.delay)], now⟩])
    ∧ (∀ req : TypeTextRequest, (MockAgentServer.type_text s d req now).1.commands
      = s.commands ++ [⟨"type_text", d, [("text", .str req.text)], now⟩])
    ∧ ((MockAgentServer.clear_text s d now).1.commands
      = s.commands ++ [⟨"clear_text", d, [], now⟩])
    ∧ (∀ delay : Option Rat, (MockAgentServer.back s d delay now).1.commands
      = s.commands ++ [⟨"back", d, [("delay", Value.ofOptRat delay)], now⟩])
    ∧ (∀ delay : Option Rat, (MockAgentServer.home s d delay now).1.commands
      = s.commands ++ [⟨"home", d, [("delay", Value.ofOptRat delay)], now⟩])
    ∧ (∀ req : LaunchAppRequest, (MockAgentServer.launch_app s d req now).1.commands
      = s.commands ++ [⟨"launch_app", d,
          [("app_name", .str req.app_name), ("delay", Value.ofOptRat req.delay)], now⟩])
    ∧ ((MockAgentServer.current_app s d now).1.commands
      = s.commands ++ [⟨"get_current_app", d, [], now⟩])
    ∧ (∀ req : ScreenshotRequest, (MockAgentServer.screenshot s d req now).1.commands
      = s.commands ++ [⟨"screenshot", d, [("timeout", .int req.timeout)], now⟩])
    ∧ ((MockAgentServer.detect_keyboard s d now).1.commands
      = s.commands ++ [⟨"detect_keyboard", d, [], now⟩])
    ∧ (∀ ime : String, (MockAgentServer.restore_keyboard s d ime now).1.commands
      = s.commands ++ [⟨"restore_keyboard", d, [("ime", .str ime)], now⟩]) := by
  refine ⟨?_, ?_, ?_, ?_, fun req => rfl, rfl, fun delay => rfl, fun delay => rfl,
    fun req => rfl, rfl, ?_, rfl, fun ime => rfl⟩ <;>
    intro req <;>
    cases hsm : s.state_machine <;>
    simp [MockAgentServer.tap, MockAgentServer.double_tap, MockAgentServer.long_press,
      MockAgentServer.swipe, MockAgentServer.screenshot, MockAgentState.record, hsm]

/-- C2: `expect` leaves the state (command log and state machine) unchanged,
reports `match = true` exactly when the recorded action names equal the
parsed expected list, and carries the `expected`, `actual` and diagnostic
`message` fields, the message reading `"Commands match!"` exactly in the
match case. -/
theorem c2_expect_pure_report (s : MockAgentState) (q : String) :
    (MockAgentServer.expect_commands s q).1 = s
    ∧ ((MockAgentServer.expect_commands s q).2.«match» = true ↔
        s.commands.map CommandRecord.action = parseExpected q)
    ∧ (MockAgentServer.expect_commands s q).2.expected = parseExpected q
    ∧ (MockAgentServer.expect_commands s q).2.actual = s.commands.map CommandRecord.action
    ∧ ((MockAgentServer.expect_commands s q).2.message = "Commands match!" ↔
        (MockAgentServer.expect_commands s q).2.«match» = true) := by
  refine ⟨rfl, ?_, rfl, rfl, ?_⟩
  · simp [MockAgentServer.expect_commands]
  · simp only [MockAgentServer.expect_commands]
    by_cases hm : (s.commands.map CommandRecord.action == parseExpected q) = true
    · simp [hm]
    · simp only [hm, if_false, Bool.false_eq_true, iff_false, ite_false]
      exact mismatch_message_ne _ _

/-- C3: when the scenario loader raises, `load_scenario` answers with an
HTTP 400 client error and the previously active engine (`state_machine`) is
left in place unchanged — this holds for every loader, every prior harness
state and every requested path. -/
theorem c3_load_scenario_failure_preserves_engine {α β : Type}
    (load_test_case : String → Except String (SimulationEngine × α × β))
    (s : MockAgentState) (req : LoadScenarioRequest) (e : String)
    (h : load_test_case req.scenario_path = .error e) :
    (MockAgentServer.load_scenario load_test_case s req).1.state_machine = s.state_machine
    ∧ (MockAgentServer.load_scenario load_test_case s req).2
      = .error ⟨400, "Failed to load scenario: " ++ e⟩ := by
  simp [MockAgentServer.load_scenario, MockAgentState.run_load_scenario, h]

theorem c3_witness :
    (fun _ : String => (Except.error "boom" : Except String (SimulationEngine × Unit × Unit)))
        "missing.yaml" = .error "boom"
    ∧ ((MockAgentServer.load_scenario
          (fun _ : String => (Except.error "boom" : Except String (SimulationEngine × Unit × Unit)))
          MockAgentState.init ⟨"missing.yaml"⟩).1.state_machine
        = MockAgentState.init.state_machine
      ∧ (MockAgentServer.load_scenario
          (fun _ : String => (Except.error "boom" : Except String (SimulationEngine × Unit × Unit)))
          MockAgentState.init ⟨"missing.yaml"⟩).2
        = .error ⟨400, "Failed to load scenario: " ++ "boom"⟩) :=
  ⟨rfl, c3_load_scenario_failure_preserves_engine
    (fun _ => Except.error "boom") MockAgentState.init ⟨"missing.yaml"⟩ "boom" rfl⟩

/-- C4: a single `record` call appends exactly one entry after the existing
ones, and after any sequence of `record` calls `get_commands` returns one
entry per call, in completion order, with all earlier entries unchanged. -/
theorem c4_get_commands_insertion_order (s : MockAgentState) (calls : List RecordCall) :
    (applyRecords s calls).commands = s.commands ++ calls.map RecordCall.toRecord
    ∧ (MockAgentServer.get_commands (applyRecords s calls)).2
      = (s.commands ++ calls.map RecordCall.toRecord).map CommandRecord.to_dict
    ∧ (MockAgentServer.get_commands (applyRecords s calls)).2.length
      = s.commands.length + calls.length
    ∧ ∀ (a d : String) (p : List (String × Value)) (t : Nat),
        (MockAgentState.record s a d p t).commands = s.commands ++ [⟨a, d, p, t⟩] := by
  refine ⟨applyRecords_commands calls s, ?_, ?_, fun a d p t => rfl⟩
  · simp [MockAgentServer.get_commands, applyRecords_commands]
  · simp [MockAgentServer.get_commands, applyRecords_commands]

/-- C5: the `reset` endpoint clears the command log and changes nothing
else: the engine reference and scenario path are untouched, so the observable
current state and history (`get_state`) are unchanged. -/
theorem c5_reset_clears_only_commands (s : MockAgentState) :
    (MockAgentServer.reset s).1.commands = []
    ∧ (MockAgentServer.reset s).1.state_machine = s.state_machine
    ∧ (MockAgentServer.reset s).1.scenario_path = s.scenario_path
    ∧ (MockAgentServer.get_state (MockAgentServer.reset s).1).2
      = (MockAgentServer.get_state s).2 := by
  refine ⟨rfl, rfl, rfl, ?_⟩
  cases hsm : s.state_machine <;>
    simp [MockAgentServer.reset, MockAgentState.reset, MockAgentServer.get_state, hsm]

/-- C6: with no scenario loaded, `screenshot` answers the fixed placeholder
`{base64_data = "", width = 1080, height = 2400, is_sensitive = false}`,
`current_app` answers the fixed placeholder `"com.mock.app"`, and
`get_state` answers `{current_state = null, history = []}`; each is an
ordinary (non-error) response. -/
theorem c6_placeholders_when_not_loaded (s : MockAgentState) (d : String)
    (tmo : Int) (now : Nat) (h : s.state_machine = none) :
    (MockAgentServer.screenshot s d ⟨tmo⟩ now).2 = ⟨"", 1080, 2400, false⟩
    ∧ (MockAgentServer.current_app s d now).2 = ⟨"com.mock.app"⟩
    ∧ (MockAgentServer.get_state s).2 = ⟨none, []⟩ := by
  refine ⟨?_, ?_, ?_⟩ <;>
    simp [MockAgentServer.screenshot, MockAgentServer.current_app, MockAgentServer.get_state,
      MockAgentState.get_screenshot_data, MockAgentState.get_current_app,
      MockAgentState.record, h]

theorem c6_witness :
    MockAgentState.init.state_machine = none
    ∧ ((MockAgentServer.screenshot MockAgentState.init "mock_device_001" ⟨10⟩ 0).2
        = ⟨"", 1080, 2400, false⟩
      ∧ (MockAgentServer.current_app MockAgentState.init "mock_device_001" 0).2
        = ⟨"com.mock.app"⟩
      ∧ (MockAgentServer.get_state MockAgentState.init).2 = ⟨none, []⟩) :=
  ⟨rfl, c6_placeholders_when_not_loaded MockAgentState.init "mock_device_001" 10 0 rfl⟩

/-- C7: `tap`, `double_tap` and `long_press` all transform the active engine
by exactly one `handle_tap (x, y)` event (so when no engine is active,
`Option.map` leaves `none` untouched), and the non-motion verbs never touch
the engine. -/
theorem c7_engine_dispatch (s : MockAgentState) (d : String) (now : Nat) :
    (∀ req : TapRequest, (MockAgentServer.tap s d req now).1.state_machine
      = s.state_machine.map (fun m => m.handle_tap req.x req.y))
    ∧ (∀ req : TapRequest, (MockAgentServer.double_tap s d req now).1.state_machine
      = s.state_machine.map (fun m => m.handle_tap req.x req.y))
    ∧ (∀ req : LongPressRequest, (MockAgentServer.long_press s d req now).1.state_machine
      = s.state_machine.map (fun m => m.handle_tap req.x req.y))
    ∧ (∀ req : TypeTextRequest,
        (MockAgentServer.type_text s d req now).1.state_machine = s.state_machine)
    ∧ ((MockAgentServer.clear_text s d now).1.state_machine = s.state_machine)
    ∧ (∀ delay : Option Rat,
        (MockAgentServer.back s d delay now).1.state_machine = s.state_machine)
    ∧ (∀ delay : Option Rat,
        (MockAgentServer.home s d delay now).1.state_machine = s.state_machine)
    ∧ (∀ req : LaunchAppRequest,
        (MockAgentServer.launch_app s d req now).1.state_machine = s.state_machine)
    ∧ ((MockAgentServer.detect_keyboard s d now).1.state_machine = s.state_machine)
    ∧ (∀ ime : String,
        (MockAgentServer.restore_keyboard s d ime now).1.state_machine = s.state_machine) := by
  refine ⟨?_, ?_, ?_, fun req => rfl, rfl, fun delay => rfl, fun delay => rfl,
    fun req => rfl, rfl, fun ime => rfl⟩ <;>
    intro req <;>
    cases hsm : s.state_machine <;>
    simp [MockAgentServer.tap, MockAgentServer.double_tap, MockAgentServer.long_press,
      MockAgentState.record, hsm]

/-- C10: when the scenario loader raises, the harness's `scenario_path` has
already been overwritten with the failed path (it is not rolled back), while
`state_machine` keeps its previous value. -/
theorem c10_scenario_path_not_rolled_back {α β : Type}
    (load_test_case : String → Except String (SimulationEngine × α × β))
    (s : MockAgentState) (req : LoadScenarioRequest) (e : String)
    (h : load_test_case req.scenario_path = .error e) :
    (MockAgentServer.load_scenario load_test_case s req).1.scenario_path
      = some req.scenario_path
    ∧ (MockAgentServer.load_scenario load_test_case s req).1.state_machine
      = s.state_machine := by
  simp [MockAgentServer.load_scenario, MockAgentState.run_load_scenario, h]

theorem c10_witness :
    (fun _ : String => (Except.error "parse error" : Except String (SimulationEngine × Unit × Unit)))
        "bad_scenario.yaml" = .error "parse error"
    ∧ ((MockAgentServer.load_scenario
          (fun _ : String => (Except.error "parse error" : Except String (SimulationEngine × Unit × Unit)))
          MockAgentState.init ⟨"bad_scenario.yaml"⟩).1.scenario_path
        = some "bad_scenario.yaml"
      ∧ (MockAgentServer.load_scenario
          (fun _ : String => (Except.error "parse error" : Except String (SimulationEngine × Unit × Unit)))
          MockAgentState.init ⟨"bad_scenario.yaml"⟩).1.state_machine
        = MockAgentState.init.state_machine) :=
  ⟨rfl, c10_scenario_path_not_rolled_back
    (fun _ => Except.error "parse error") MockAgentState.init ⟨"bad_scenario.yaml"⟩
    "parse error" rfl⟩

/-- `String.splitOnAux` always produces at least one chunk. -/
theorem splitOnAux_ne_nil (s sep : String) (b i j : String.Pos) (r : List String) :
    s.splitOnAux sep b i j r ≠ [] := by
  induction b, i, j, r using String.splitOnAux.induct s sep with
  | case1 b i j r h =>
    rw [String.splitOnAux]
    simp [h]
  | case2 b i j r h1 h2 i1 j1 h3 ih =>
    rw [String.splitOnAux]
    simp only [h1, h2, h3, if_true, if_false, ite_true, ite_false, Bool.false_eq_true]
    simpa using ih
  | case3 b i j r h1 h2 i1 j1 h3 ih =>
    rw [String.splitOnAux]
    simp only [h1, h2, h3, if_true, if_false, ite_true, ite_false, Bool.false_eq_true]
    simpa using ih
  | case4 b i j r h1 h2 ih =>
    rw [String.splitOnAux]
    simp only [h1, h2, if_true, if_false, ite_true, ite_false, Bool.false_eq_true]
    simpa using ih

/-- `String.splitOn` (Python `str.split`) always produces at least one
chunk. -/
theorem splitOn_ne_nil (s sep : String) : s.splitOn sep ≠ [] := by
  unfold String.splitOn
  split
  · simp
  · exact splitOnAux_ne_nil s sep 0 0 0 []

/-- Python `"".strip()` is the empty string (`String.trim` model). -/
theorem trim_empty : String.trim "" = "" := by
  have h1 : Substring.takeWhileAux "" 0 Char.isWhitespace 0 = 0 := by
    rw [Substring.takeWhileAux]
    simp
  have h2 : Substring.takeRightWhileAux "" 0 Char.isWhitespace 0 = 0 := by
    rw [Substring.takeRightWhileAux]
    simp
  show ("".toSubstring.trim).toString = ""
  rw [show ("".toSubstring) = ⟨"", 0, 0⟩ from rfl]
  rw [Substring.trim]
  simp only [h1, h2]
  rfl

/-- C9: the `expect` endpoint's expected list is the comma-split,
whitespace-stripped query string; splitting the empty string yields the
one-element list `[""]` — and since a split is never empty, `expect` can
never report `match = true` while the recorded log is empty. -/
theorem c9_expected_never_empty :
    parseExpected "" = [""]
    ∧ (∀ (s : MockAgentState) (q : String),
        (MockAgentServer.expect_commands s q).2.expected = (q.splitOn ",").map String.trim)
    ∧ ∀ (s : MockAgentState) (q : String), s.commands = [] →
        (MockAgentServer.expect_commands s q).2.«match» = false := by
  refine ⟨?_, fun s q => rfl, fun s q h => ?_⟩
  · show (String.splitOn "" ",").map String.trim = [""]
    unfold String.splitOn
    rw [if_neg (by decide)]
    rw [String.splitOnAux]
    simp
    rw [if_pos (by decide : (0 : String.Pos) ≤ 0)]
    rw [show ("".extract 0 0) = "" from rfl]
    simp [trim_empty]
  · have hne : parseExpected q ≠ [] := by
      simp only [parseExpected, ne_eq, List.map_eq_nil_iff]
      exact splitOn_ne_nil q ","
    simp only [MockAgentServer.expect_commands, h, List.map_nil]
    rw [beq_eq_false_iff_ne]
    exact fun hh => hne hh.symm

theorem c9_witness :
    MockAgentState.init.commands = []
    ∧ (MockAgentServer.expect_commands MockAgentState.init "").2.«match» = false :=
  ⟨rfl, c9_expected_never_empty.2.2 MockAgentState.init "" rfl⟩

/-- On a well-formed log, every entry of the client's `taps` list exposes
integer coordinates. -/
theorem tapWF_xy (s : MockAgentState) (hwf : tapWF s.commands = true) :
    ∀ tp ∈ MockAgentTestClient.tapActions s, (tapXY tp).isSome = true := by
  intro tp htp
  simp only [MockAgentTestClient.tapActions, MockAgentServer.get_command_actions,
    List.mem_filter, List.mem_map] at htp
  obtain ⟨⟨cmd, hcmd, rfl⟩, hact⟩ := htp
  simp only [tapWF, List.all_eq_true] at hwf
  have h := hwf cmd hcmd
  simpa only [hact, if_true] using h

/-- C8: on any harness-produced log (well-formed per `tapWF`),
`assert_tap_in_region` never raises a system error, and it raises an
assertion failure exactly when fewer than `n + 1` taps are recorded or the
`n`-th tap's coordinates fall outside the (inclusive-bounds) rectangle. -/
theorem c8_assert_tap_in_region_iff (s : MockAgentState) (x1 y1 x2 y2 : Int) (n : Nat)
    (hwf : tapWF s.commands = true) :
    (∀ m, MockAgentTestClient.assert_tap_in_region s x1 y1 x2 y2 n
      ≠ ClientOutcome.systemError m)
    ∧ ((MockAgentTestClient.assert_tap_in_region s x1 y1 x2 y2 n).isAssertionError = true ↔
        (MockAgentTestClient.tapActions s).length < n + 1
        ∨ ∃ x y, ((MockAgentTestClient.tapActions s)[n]?).bind tapXY = some (x, y)
            ∧ ¬(x1 ≤ x ∧ x ≤ x2 ∧ y1 ≤ y ∧ y ≤ y2)) := by
  by_cases hlt : n < (MockAgentTestClient.tapActions s).length
  · have hmem : (MockAgentTestClient.tapActions s)[n] ∈ MockAgentTestClient.tapActions s :=
      List.getElem_mem hlt
    obtain ⟨⟨x, y⟩, hxy⟩ :=
      Option.isSome_iff_exists.mp (tapWF_xy s hwf _ hmem)
    have hget : (MockAgentTestClient.tapActions s)[n]?
        = some (MockAgentTestClient.tapActions s)[n] := List.getElem?_eq_getElem hlt
    have hnot : ¬ ((MockAgentTestClient.tapActions s).length < n + 1) := by omega
    constructor
    · intro m
      simp only [MockAgentTestClient.assert_tap_in_region, dif_pos hlt, hxy]
      by_cases hx : x1 ≤ x ∧ x ≤ x2 <;> by_cases hy : y1 ≤ y ∧ y ≤ y2 <;>
        simp [hx, hy]
    · simp only [MockAgentTestClient.assert_tap_in_region, dif_pos hlt, hxy, hget,
        Option.some_bind, hnot, false_or, Option.some.injEq, Prod.mk.injEq]
      constructor
      · intro hassert
        by_cases hx : x1 ≤ x ∧ x ≤ x2
        · by_cases hy : y1 ≤ y ∧ y ≤ y2
          · simp [hx, hy, ClientOutcome.isAssertionError] at hassert
          · exact ⟨x, y, ⟨rfl, rfl⟩, fun hc => hy ⟨hc.2.2.1, hc.2.2.2⟩⟩
        · exact ⟨x, y, ⟨rfl, rfl⟩, fun hc => hx ⟨hc.1, hc.2.1⟩⟩
      · rintro ⟨x', y', ⟨hx', hy'⟩, hout⟩
        subst hx'
        subst hy'
        by_cases hx : x1 ≤ x ∧ x ≤ x2
        · by_cases hy : y1 ≤ y ∧ y ≤ y2
          · exact absurd ⟨hx.1, hx.2, hy.1, hy.2⟩ hout
          · simp [hx, hy, ClientOutcome.isAssertionError]
        · simp [hx, ClientOutcome.isAssertionError]
  · have hres : MockAgentTestClient.assert_tap_in_region s x1 y1 x2 y2 n
        = .assertionError ("Expected at least " ++ toString (n + 1) ++ " tap(s), got " ++
            toString (MockAgentTestClient.tapActions s).length) := by
      simp only [MockAgentTestClient.assert_tap_in_region, dif_neg hlt]
    refine ⟨fun m => by rw [hres]; simp, ?_⟩
    rw [hres]
    simp only [ClientOutcome.isAssertionError, true_iff]
    exact Or.inl (by omega)

theorem c8_witness :
    tapWF ((MockAgentServer.tap MockAgentState.init "mock_device_001" ⟨50, 60, none⟩ 0).1).commands
      = true
    ∧ ((∀ m, MockAgentTestClient.assert_tap_in_region
          (MockAgentServer.tap MockAgentState.init "mock_device_001" ⟨50, 60, none⟩ 0).1
          0 0 100 100 0 ≠ ClientOutcome.systemError m)
      ∧ ((MockAgentTestClient.assert_tap_in_region
            (MockAgentServer.tap MockAgentState.init "mock_device_001" ⟨50, 60, none⟩ 0).1
            0 0 100 100 0).isAssertionError = true ↔
          (MockAgentTestClient.tapActions
              (MockAgentServer.tap MockAgentState.init "mock_device_001" ⟨50, 60, none⟩ 0).1).length
            < 0 + 1
          ∨ ∃ x y,
              ((MockAgentTestClient.tapActions
                  (MockAgentServer.tap MockAgentState.init "mock_device_001" ⟨50, 60, none⟩ 0).1)[0]?).bind
                    tapXY
                = some (x, y)
              ∧ ¬(0 ≤ x ∧ x ≤ 100 ∧ 0 ≤ y ∧ y ≤ 100))) :=
  ⟨rfl, c8_assert_tap_in_region_iff
    (MockAgentServer.tap MockAgentState.init "mock_device_001" ⟨50, 60, none⟩ 0).1
    0 0 100 100 0 rfl⟩
